import Mathlib

/-!
Verification development for the `tterminal` kanban TODO application.

The UI layer (`tterminal/main.py`) is embedded directly from its source.
The data-model module it imports (`Task`, `TaskManager`, `Priority`,
`Status` from `tterminal/models.py`) is not present in the source tree;
those definitions are modelled from the specification and are marked
`Modelled from the spec:` in their doc comments.

External, nondeterministic inputs of the UI (widget contents, the fresh
uuid, the wall-clock time, the focused widget) are passed as explicit
parameters.  Persistence is modelled by a write counter on the manager
state (`saves`), incremented by every write-through save.
-/

set_option autoImplicit false

namespace TTerm

/-! ## Python string primitives

Structural embeddings of the Python string operations the program uses
(`str.strip`, and the pieces of `strptime` splitting/digit matching), so
that all definitions reduce in the kernel. -/

/-- Embedding of Python's `str.strip()`: remove whitespace from both ends. -/
def pyStrip (s : String) : String :=
  String.mk (((s.data.dropWhile Char.isWhitespace).reverse.dropWhile
    Char.isWhitespace).reverse)

/-- Split a character list on a separator character; mirrors
`str.split(sep)` in that `n` separators yield `n + 1` groups, possibly
empty. -/
def splitOnChar (sep : Char) : List Char → List (List Char)
  | [] => [[]]
  | c :: cs =>
    if c = sep then [] :: splitOnChar sep cs
    else match splitOnChar sep cs with
      | [] => [[c]]
      | g :: gs => (c :: g) :: gs

/-- Decimal value of a digit list. -/
def decimalValue (cs : List Char) : Nat :=
  cs.foldl (fun n c => 10 * n + (c.toNat - 48)) 0

/-- A nonempty all-digit group parses to its decimal value; anything else
fails, as the regular expressions of `_strptime` only match digits. -/
def parseNatDigits (cs : List Char) : Option Nat :=
  if cs ≠ [] ∧ cs.all Char.isDigit then some (decimalValue cs) else none

/-! ## Dates and `datetime.strptime(s, "%Y-%m-%d")` -/

/-- A calendar date (the deadline has no time-of-day component that the
application ever distinguishes; `strptime` with this format always yields
midnight). -/
structure Date where
  year : Nat
  month : Nat
  day : Nat
deriving DecidableEq, Repr

/-- Gregorian leap-year test, as used by `datetime`'s day-of-month
validation. -/
def isLeap (y : Nat) : Bool :=
  decide ((y % 4 = 0 ∧ y % 100 ≠ 0) ∨ y % 400 = 0)

/-- Number of days in a month, as validated by the `datetime` constructor. -/
def daysInMonth (y m : Nat) : Nat :=
  if m = 2 then (if isLeap y then 29 else 28)
  else if m = 4 ∨ m = 6 ∨ m = 9 ∨ m = 11 then 30
  else 31

/-- Embedding of `datetime.strptime(s, "%Y-%m-%d")`, returning `none` where
Python raises `ValueError`.  CPython's `_strptime` matches `%Y` as exactly
four digits, `%m` as one or two digits in 1..12, `%d` as one or two digits
in 1..31, requires the whole string to be consumed, and the `datetime`
constructor then rejects a day that does not exist in the given month and
a year below 1. -/
def parseDate (s : String) : Option Date :=
  match splitOnChar ('-') s.data with
  | [ys, ms, ds] =>
    match parseNatDigits ys, parseNatDigits ms, parseNatDigits ds with
    | some y, some m, some d =>
      if ys.length = 4 ∧ 1 ≤ y ∧ ms.length ≤ 2 ∧ 1 ≤ m ∧ m ≤ 12 ∧
         ds.length ≤ 2 ∧ 1 ≤ d ∧ d ≤ daysInMonth y m
      then some { year := y, month := m, day := d }
      else none
    | _, _, _ => none
  | _ => none

/-! ## Data model (`tterminal/models.py`, modelled from the spec) -/

/-- Modelled from the spec: the closed `Priority` enumeration of
`tterminal/models.py` (missing from the source tree), four
Eisenhower-matrix values. -/
inductive Priority where
  | urgent_important
  | not_urgent_important
  | urgent_not_important
  | not_urgent_not_important
deriving DecidableEq, Repr

/-- Modelled from the spec: the numeric rank attached to each `Priority`
value (lower = more urgent), used by the priority sort. -/
def Priority.rank : Priority → Nat
  | .urgent_important => 0
  | .not_urgent_important => 1
  | .urgent_not_important => 2
  | .not_urgent_not_important => 3

/-- Modelled from the spec: the closed `Status` enumeration of
`tterminal/models.py` (missing from the source tree): the kanban column a
task occupies. -/
inductive Status where
  | todo
  | doing
  | done
deriving DecidableEq, Repr

/-- Modelled from the spec: the `Task` record of `tterminal/models.py`
(missing from the source tree).  `status` defaults to `todo` and
`created_at` is the wall-clock timestamp of creation (modelled as a `Nat`);
`main.py` constructs a `Task` without passing either, relying on these
defaults. -/
structure Task where
  id : String
  title : String
  description : String
  priority : Priority
  status : Status := Status.todo
  deadline : Option Date := none
  created_at : Nat
deriving DecidableEq, Repr

/-- Modelled from the spec: the manager's state.  `tasks` is the ordered
collection (insertion order = creation order); `saves` counts the
write-through persistence writes performed so far. -/
structure TaskManager where
  tasks : List Task
  saves : Nat := 0
deriving DecidableEq, Repr

/-- Modelled from the spec: `save()` serializes the collection to durable
storage; here it only records that one more write happened. -/
def TaskManager.save (m : TaskManager) : TaskManager :=
  { m with saves := m.saves + 1 }

/-- Modelled from the spec: `add_task` (called by `main.py` with a fully
constructed `Task`) appends the task to the collection and triggers a
write-through save. -/
def TaskManager.add_task (m : TaskManager) (t : Task) : TaskManager :=
  TaskManager.save { m with tasks := m.tasks ++ [t] }

/-- The subset of fields supplied to `update_task`; `none` means the field
is not supplied.  For `deadline`, `some none` supplies an explicit
"no deadline". -/
structure UpdateFields where
  title : Option String := none
  description : Option String := none
  priority : Option Priority := none
  status : Option Status := none
  deadline : Option (Option Date) := none
deriving DecidableEq, Repr

/-- Modelled from the spec: how `update_task` applies supplied fields to a
task.  A supplied title that trims to empty is left unchanged (per-field
rejection preserving the no-empty-title invariant); every other supplied
field overwrites unconditionally. -/
def applyFields (t : Task) (f : UpdateFields) : Task :=
  { t with
    title := match f.title with
      | some s => if pyStrip s = "" then t.title else s
      | none => t.title
    description := f.description.getD t.description
    priority := f.priority.getD t.priority
    status := f.status.getD t.status
    deadline := match f.deadline with
      | some d => d
      | none => t.deadline }

/-- Modelled from the spec: `update_task(id, **fields)` finds the task with
the given id; if absent it is a no-op returning `false`; otherwise it
applies the supplied fields, triggers a write-through save and returns
`true`. -/
def TaskManager.update_task (m : TaskManager) (idv : String) (f : UpdateFields) :
    TaskManager × Bool :=
  if m.tasks.any (fun t => t.id == idv) = true then
    (TaskManager.save
      { m with tasks := m.tasks.map (fun t => if t.id == idv then applyFields t f else t) },
     true)
  else (m, false)

/-- Modelled from the spec: `delete_task(id)` removes the matching task if
present, triggers a save, and returns whether a task was removed. -/
def TaskManager.delete_task (m : TaskManager) (idv : String) : TaskManager × Bool :=
  if m.tasks.any (fun t => t.id == idv) = true then
    (TaskManager.save { m with tasks := m.tasks.filter (fun t => t.id != idv) }, true)
  else (m, false)

/-- Modelled from the spec: `force_save()` is semantically identical to
`save()`, provided as a distinct hook for the shutdown path. -/
def TaskManager.force_save (m : TaskManager) : TaskManager :=
  TaskManager.save m

/-- Modelled from the spec: `get_tasks_by_status(status)` returns, in
creation order, every task whose status equals the argument; non-mutating. -/
def TaskManager.get_tasks_by_status (m : TaskManager) (s : Status) : List Task :=
  m.tasks.filter (fun t => t.status == s)

/-- Stable insertion used by the sort policies: `x` is placed before the
first element not strictly below it, so equal-key elements keep their
original relative order. -/
def stableInsert {α : Type} (lt : α → α → Bool) (x : α) : List α → List α
  | [] => [x]
  | y :: ys => if lt y x then y :: stableInsert lt x ys else x :: y :: ys

/-- Stable sort by a strict comparison, used by the sort policies. -/
def stableSortBy {α : Type} (lt : α → α → Bool) : List α → List α
  | [] => []
  | x :: xs => stableInsert lt x (stableSortBy lt xs)

/-- Modelled from the spec: sort ascending by priority rank, ties broken by
`created_at` ascending. -/
def sort_tasks_by_priority (ts : List Task) : List Task :=
  stableSortBy (fun t u =>
    decide (t.priority.rank < u.priority.rank ∨
      (t.priority.rank = u.priority.rank ∧ t.created_at < u.created_at))) ts

/-- Modelled from the spec: sort ascending by `created_at`. -/
def sort_tasks_by_date (ts : List Task) : List Task :=
  stableSortBy (fun t u => decide (t.created_at < u.created_at)) ts

/-- Numeric key placing tasks without a deadline after every task with one
(a date key is below `10 ^ 8` since years have four digits). -/
def deadlineKey (t : Task) : Nat :=
  match t.deadline with
  | some d => d.year * 10000 + d.month * 100 + d.day
  | none => 100000000

/-- Modelled from the spec: sort ascending by deadline date; tasks with no
deadline come after all tasks with one and keep creation order among
themselves (stable sort on `deadlineKey`). -/
def sort_tasks_by_deadline (ts : List Task) : List Task :=
  stableSortBy (fun t u => decide (deadlineKey t < deadlineKey u)) ts

/-! ## Presentation layer (`tterminal/main.py`, embedded from the source) -/

/-- The three sort modes of `TodoApp.sort_mode`. -/
inductive SortMode where
  | priority
  | date
  | deadline
deriving DecidableEq, Repr

/-- The display state of `TodoApp`: the three kanban columns (each the list
of task records the column's widgets were built from), the sort mode, and
the `_last_task_count` cache.  The model assumes a fully mounted app (the
`hasattr` guard of `refresh_tasks` never fires). -/
structure AppState where
  todo_column : List Task
  doing_column : List Task
  done_column : List Task
  sort_mode : SortMode
  last_task_count : Nat
deriving DecidableEq, Repr

/-- Dispatch of `refresh_tasks`' sort-mode `if`/`elif` chain. -/
def sortForMode (mode : SortMode) (ts : List Task) : List Task :=
  match mode with
  | .priority => sort_tasks_by_priority ts
  | .date => sort_tasks_by_date ts
  | .deadline => sort_tasks_by_deadline ts

/-- Embedding of `TodoApp.refresh_tasks(force)`: if not forced and the task
count equals the cached `_last_task_count`, return with no display change;
otherwise update the cache and rebuild every column from
`get_tasks_by_status` sorted for the current mode. -/
def refresh_tasks (mgr : TaskManager) (force : Bool) (a : AppState) : AppState :=
  if force = false ∧ mgr.tasks.length = a.last_task_count then a
  else
    { a with
      last_task_count := mgr.tasks.length
      todo_column := sortForMode a.sort_mode (mgr.get_tasks_by_status Status.todo)
      doing_column := sortForMode a.sort_mode (mgr.get_tasks_by_status Status.doing)
      done_column := sortForMode a.sort_mode (mgr.get_tasks_by_status Status.done) }

/-- Embedding of `NewTaskScreen.create_task`.  Widget contents
(`titleInput`, `descriptionInput`, `deadlineInput`, `prioritySelect`), the
fresh uuid (`freshId`) and the wall-clock time (`now`) are parameters.
Returns the manager, the app display state, and whether the screen was
dismissed (the empty-title early return neither creates nor dismisses). -/
def create_task (mgr : TaskManager) (a : AppState)
    (titleInput descriptionInput deadlineInput : String)
    (prioritySelect : Priority) (freshId : String) (now : Nat) :
    TaskManager × AppState × Bool :=
  if (pyStrip titleInput) = "" then (mgr, a, false)
  else
    let deadline : Option Date :=
      if (pyStrip deadlineInput) = "" then none else parseDate (pyStrip deadlineInput)
    let task : Task :=
      { id := freshId, title := (pyStrip titleInput), description := (pyStrip descriptionInput),
        priority := prioritySelect, status := Status.todo,
        deadline := deadline, created_at := now }
    let m := mgr.add_task task
    (m, refresh_tasks m true a, true)

/-- The keyword arguments of the `update_task` call inside
`EditTaskScreen.save_task`: every field is supplied; the deadline value is
the result of lines 216-224 of `main.py` (empty text gives `none`, a parse
success gives the parsed date, a parse failure keeps the screen task's
existing deadline). -/
def saveFields (task : Task) (titleInput descriptionInput deadlineInput : String)
    (prioritySelect : Priority) (statusSelect : Status) : UpdateFields :=
  { title := some (pyStrip titleInput)
    description := some (pyStrip descriptionInput)
    priority := some prioritySelect
    status := some statusSelect
    deadline := some
      (if (pyStrip deadlineInput) = "" then none
       else match parseDate (pyStrip deadlineInput) with
         | some d => some d
         | none => task.deadline) }

/-- Embedding of `EditTaskScreen.save_task` for the screen editing `task`
(the screen's `_task_obj`).  On an empty stripped title the whole save is
skipped (no update, no refresh, no dismissal); otherwise `update_task` is
called with `saveFields`, followed by a forced refresh and dismissal. -/
def save_task (mgr : TaskManager) (a : AppState) (task : Task)
    (titleInput descriptionInput deadlineInput : String)
    (prioritySelect : Priority) (statusSelect : Status) :
    TaskManager × AppState × Bool :=
  if (pyStrip titleInput) = "" then (mgr, a, false)
  else
    let m := (mgr.update_task task.id
      (saveFields task titleInput descriptionInput deadlineInput prioritySelect statusSelect)).1
    (m, refresh_tasks m true a, true)

/-- Embedding of `EditTaskScreen.delete_task`. -/
def delete_task (mgr : TaskManager) (a : AppState) (task : Task) :
    TaskManager × AppState :=
  let m := (mgr.delete_task task.id).1
  (m, refresh_tasks m true a)

/-- Embedding of `TodoApp.action_move_task_left`.  `focused` is the task of
the focused `TaskWidget`, or `none` when no task widget has focus. -/
def action_move_task_left (mgr : TaskManager) (a : AppState)
    (focused : Option Task) : TaskManager × AppState :=
  match focused with
  | none => (mgr, a)
  | some task =>
    let newStatus : Option Status :=
      if task.status = Status.done then some Status.doing
      else if task.status = Status.doing then some Status.todo
      else none
    match newStatus with
    | none => (mgr, a)
    | some ns =>
      let m := (mgr.update_task task.id { status := some ns }).1
      (m, refresh_tasks m true a)

/-- Embedding of `TodoApp.action_move_task_right`. -/
def action_move_task_right (mgr : TaskManager) (a : AppState)
    (focused : Option Task) : TaskManager × AppState :=
  match focused with
  | none => (mgr, a)
  | some task =>
    let newStatus : Option Status :=
      if task.status = Status.todo then some Status.doing
      else if task.status = Status.doing then some Status.done
      else none
    match newStatus with
    | none => (mgr, a)
    | some ns =>
      let m := (mgr.update_task task.id { status := some ns }).1
      (m, refresh_tasks m true a)

/-- Embedding of `TodoApp.on_unmount`: the shutdown hook performs exactly
one `force_save`. -/
def on_unmount (mgr : TaskManager) : TaskManager :=
  mgr.force_save

end TTerm

namespace TTerm

/-! ## Concrete fixtures used by witnesses and counterexamples -/

/-- A task with a stored deadline, sitting in the todo column. -/
def task0 : Task :=
  { id := "t0", title := "Old title", description := "old",
    priority := Priority.not_urgent_not_important, status := Status.todo,
    deadline := some { year := 2024, month := 1, day := 15 }, created_at := 1 }

/-- A task in the done column, with no deadline. -/
def taskDone : Task :=
  { id := "t1", title := "Finished", description := "",
    priority := Priority.urgent_important, status := Status.done,
    deadline := none, created_at := 2 }

/-- A manager holding `task0` and `taskDone`. -/
def mgr0 : TaskManager := { tasks := [task0, taskDone], saves := 0 }

/-- A display state consistent with `mgr0` (cached count 2). -/
def app0 : AppState :=
  { todo_column := [task0], doing_column := [], done_column := [taskDone],
    sort_mode := SortMode.priority, last_task_count := 2 }

/-! ## Helper lemmas about `update_task` -/

/-- An update never changes the number of tasks in the collection. -/
theorem update_task_length (m : TaskManager) (idv : String) (f : UpdateFields) :
    ((m.update_task idv f).1).tasks.length = m.tasks.length := by
  unfold TaskManager.update_task
  by_cases h : m.tasks.any (fun t => t.id == idv) = true
  · rw [if_pos h]
    simp [TaskManager.save]
  · rw [if_neg h]

/-- Every task carrying the updated id in the post-update collection is the
image of some task under `applyFields`. -/
theorem update_task_matching (m : TaskManager) (idv : String) (f : UpdateFields) :
    ∀ t', t' ∈ ((m.update_task idv f).1).tasks → t'.id = idv →
      ∃ u, t' = applyFields u f := by
  intro t' hmem hid
  unfold TaskManager.update_task at hmem
  by_cases h : m.tasks.any (fun t => t.id == idv) = true
  · rw [if_pos h] at hmem
    simp only [TaskManager.save] at hmem
    obtain ⟨u, hu, heq⟩ := List.mem_map.mp hmem
    by_cases h2 : (u.id == idv) = true
    · rw [if_pos h2] at heq
      exact ⟨u, heq.symm⟩
    · rw [if_neg h2] at heq
      rw [← heq] at hid
      exact absurd (beq_iff_eq.mpr hid) h2
  · rw [if_neg h] at hmem
    have hmem' : t' ∈ m.tasks := hmem
    have hany : m.tasks.any (fun t => t.id == idv) = true := by
      refine List.any_eq_true.mpr ⟨t', hmem', ?_⟩
      exact beq_iff_eq.mpr hid
    exact absurd hany h

/-- Updating an id that is present keeps the updated task in the
collection: the image of the stored task under `applyFields` is a member of
the post-update collection. -/
theorem update_task_presence (m : TaskManager) (idv : String) (f : UpdateFields)
    (u : Task) (hu : u ∈ m.tasks) (hid : u.id = idv) :
    applyFields u f ∈ ((m.update_task idv f).1).tasks := by
  unfold TaskManager.update_task
  have hany : m.tasks.any (fun t => t.id == idv) = true := by
    refine List.any_eq_true.mpr ⟨u, hu, ?_⟩
    exact beq_iff_eq.mpr hid
  rw [if_pos hany]
  simp only [TaskManager.save]
  refine List.mem_map.mpr ⟨u, hu, ?_⟩
  rw [if_pos (beq_iff_eq.mpr hid)]

/-- `applyFields` never touches the id. -/
theorem applyFields_id (u : Task) (f : UpdateFields) : (applyFields u f).id = u.id := rfl

/-! ## Claim theorems -/

/-- C1 (counterexample): saving with a title that strips to empty and a
changed description, status and deadline leaves the manager, the display
and the screen untouched — the other supplied fields are NOT applied, the
update is rejected as a whole. -/
theorem save_task_blank_title_rejects_whole_update :
    save_task mgr0 app0 task0 ("   ") ("new description") ("2030-01-01")
        Priority.urgent_important Status.doing = (mgr0, app0, false)
    ∧ task0.description ≠ "new description"
    ∧ task0.status ≠ Status.doing := by
  refine ⟨by decide, by decide, by decide⟩

/-- C1 (amended): for every save of an existing task where the supplied
title strips to empty, the entire save is skipped: no supplied field is
applied, the collection and persistence state are unchanged, the display is
not refreshed and the screen is not dismissed. -/
theorem save_task_blank_title_whole_noop
    (mgr : TaskManager) (a : AppState) (task : Task)
    (titleInput descriptionInput deadlineInput : String)
    (p : Priority) (s : Status)
    (h : pyStrip titleInput = "") :
    save_task mgr a task titleInput descriptionInput deadlineInput p s = (mgr, a, false) := by
  simp [save_task, h]

/-- C1 (amended, witness): the no-op at a concrete blank-title save. -/
theorem save_task_blank_title_whole_noop_instance :
    pyStrip ("  ") = ""
    ∧ save_task mgr0 app0 task0 ("  ") ("x") ("2030-05-05")
        Priority.urgent_important Status.done = (mgr0, app0, false) :=
  ⟨by decide, save_task_blank_title_whole_noop mgr0 app0 task0 ("  ") ("x") ("2030-05-05")
    Priority.urgent_important Status.done (by decide)⟩

/-- C2 (counterexample): the id stored for a newly created task is exactly
the uuid the UI screen generated and passed when constructing the `Task`
itself — choosing a different caller-side uuid yields a task with that
other id, so the id is chosen outside the manager, which only appends the
prebuilt task. -/
theorem create_task_id_chosen_by_caller :
    ((create_task { tasks := [] } app0 ("A task") ("") ("") Priority.urgent_important
        ("uuid-from-ui-1") 5).1.tasks.map (fun t => t.id) = [("uuid-from-ui-1")])
    ∧ ((create_task { tasks := [] } app0 ("A task") ("") ("") Priority.urgent_important
        ("uuid-from-ui-2") 5).1.tasks.map (fun t => t.id) = [("uuid-from-ui-2")]) := by
  refine ⟨by decide, by decide⟩

/-- C2 (amended): every task is created by the UI screen's `create_task`,
which itself constructs the `Task` record — with the UI-generated uuid as
id and the call-time timestamp as `created_at` — and hands the finished
task to the manager's `add_task`, which only appends it and persists. -/
theorem create_task_constructs_task_in_ui
    (mgr : TaskManager) (a : AppState)
    (titleInput descriptionInput deadlineInput : String)
    (p : Priority) (freshId : String) (now : Nat)
    (ht : pyStrip titleInput ≠ "") :
    (create_task mgr a titleInput descriptionInput deadlineInput p freshId now).1
      = mgr.add_task
          { id := freshId, title := pyStrip titleInput,
            description := pyStrip descriptionInput, priority := p,
            status := Status.todo,
            deadline := if pyStrip deadlineInput = "" then none
              else parseDate (pyStrip deadlineInput),
            created_at := now } := by
  simp [create_task, ht]

/-- C2 (amended, witness): the construction at a concrete input. -/
theorem create_task_constructs_task_in_ui_instance :
    pyStrip ("Task B") ≠ ""
    ∧ (create_task mgr0 app0 ("Task B") ("") ("") Priority.not_urgent_important
        ("uuid-ui-3") 11).1
      = mgr0.add_task
          { id := "uuid-ui-3", title := pyStrip ("Task B"),
            description := pyStrip (""), priority := Priority.not_urgent_important,
            status := Status.todo,
            deadline := if pyStrip ("") = "" then none else parseDate (pyStrip ("")),
            created_at := 11 } :=
  ⟨by decide, create_task_constructs_task_in_ui mgr0 app0 ("Task B") ("") ("")
    Priority.not_urgent_important ("uuid-ui-3") 11 (by decide)⟩

/-- C3: a create whose title strips to the empty string adds no task,
performs no mutation or save, does not refresh the display and does not
dismiss the screen; the operation returns silently. -/
theorem create_task_blank_title_silent_noop
    (mgr : TaskManager) (a : AppState)
    (titleInput descriptionInput deadlineInput : String)
    (p : Priority) (freshId : String) (now : Nat)
    (h : pyStrip titleInput = "") :
    create_task mgr a titleInput descriptionInput deadlineInput p freshId now
      = (mgr, a, false) := by
  simp [create_task, h]

/-- C3 (witness): a whitespace-only title at a concrete input. -/
theorem create_task_blank_title_silent_noop_instance :
    pyStrip ("   ") = ""
    ∧ create_task mgr0 app0 ("   ") ("desc") ("2024-01-01")
        Priority.urgent_important ("u1") 7 = (mgr0, app0, false) :=
  ⟨by decide, create_task_blank_title_silent_noop mgr0 app0 ("   ") ("desc") ("2024-01-01")
    Priority.urgent_important ("u1") 7 (by decide)⟩

/-- C5: a create whose nonempty deadline text fails to parse as
`YYYY-MM-DD` still creates the task — appended to the collection with
`deadline = none` — and the screen is dismissed normally. -/
theorem create_task_malformed_deadline_still_creates
    (mgr : TaskManager) (a : AppState)
    (titleInput descriptionInput deadlineInput : String)
    (p : Priority) (freshId : String) (now : Nat)
    (ht : pyStrip titleInput ≠ "")
    (hne : pyStrip deadlineInput ≠ "")
    (hbad : parseDate (pyStrip deadlineInput) = none) :
    (create_task mgr a titleInput descriptionInput deadlineInput p freshId now).1.tasks
      = mgr.tasks ++
        [{ id := freshId, title := pyStrip titleInput,
           description := pyStrip descriptionInput, priority := p,
           status := Status.todo, deadline := none, created_at := now }]
    ∧ (create_task mgr a titleInput descriptionInput deadlineInput p freshId now).2.2
        = true := by
  constructor
  · simp [create_task, TaskManager.add_task, TaskManager.save, ht, hne, hbad]
  · simp [create_task, ht]

/-- C5 (witness): creation despite the malformed deadline `2024-13-07`
(month 13 does not parse). -/
theorem create_task_malformed_deadline_still_creates_instance :
    pyStrip ("Task A") ≠ ""
    ∧ pyStrip ("2024-13-07") ≠ ""
    ∧ parseDate (pyStrip ("2024-13-07")) = none
    ∧ ((create_task mgr0 app0 ("Task A") (" d ") ("2024-13-07")
          Priority.urgent_important ("u2") 9).1.tasks
        = mgr0.tasks ++
          [{ id := "u2", title := pyStrip ("Task A"),
             description := pyStrip (" d "), priority := Priority.urgent_important,
             status := Status.todo, deadline := none, created_at := 9 }]
       ∧ (create_task mgr0 app0 ("Task A") (" d ") ("2024-13-07")
          Priority.urgent_important ("u2") 9).2.2 = true) :=
  ⟨by decide, by decide, by decide,
   create_task_malformed_deadline_still_creates mgr0 app0 ("Task A") (" d ") ("2024-13-07")
     Priority.urgent_important ("u2") 9 (by decide) (by decide) (by decide)⟩

/-- C4: when the screen's task is the stored task with its id and the
supplied deadline text is nonempty but unparseable, every stored task
carrying that id after the save keeps the previous deadline value
(`task.deadline`); the keep-old policy, in contrast to create's
drop-to-none. -/
theorem save_task_unparseable_deadline_keeps_previous
    (mgr : TaskManager) (a : AppState) (task : Task)
    (titleInput descriptionInput deadlineInput : String)
    (p : Priority) (s : Status)
    (hex : mgr.tasks.find? (fun t => t.id == task.id) = some task)
    (ht : pyStrip titleInput ≠ "")
    (hne : pyStrip deadlineInput ≠ "")
    (hbad : parseDate (pyStrip deadlineInput) = none) :
    (∃ t' ∈ (save_task mgr a task titleInput descriptionInput deadlineInput p s).1.tasks,
      t'.id = task.id ∧ t'.deadline = task.deadline)
    ∧ ∀ t' ∈ (save_task mgr a task titleInput descriptionInput deadlineInput p s).1.tasks,
        t'.id = task.id → t'.deadline = task.deadline := by
  have hstep : (save_task mgr a task titleInput descriptionInput deadlineInput p s).1
      = (mgr.update_task task.id
          (saveFields task titleInput descriptionInput deadlineInput p s)).1 := by
    simp [save_task, ht]
  constructor
  · refine ⟨applyFields task (saveFields task titleInput descriptionInput deadlineInput p s),
      ?_, applyFields_id task _, ?_⟩
    · rw [hstep]
      exact update_task_presence mgr task.id _ task (List.mem_of_find?_eq_some hex) rfl
    · simp [applyFields, saveFields, hne, hbad]
  · intro t' hmem hid
    rw [hstep] at hmem
    obtain ⟨u, hu⟩ := update_task_matching mgr task.id _ t' hmem hid
    rw [hu]
    simp [applyFields, saveFields, hne, hbad]

/-- C4 (witness): the unparseable text `2024-13-07` keeps `task0`'s stored
deadline of 2024-01-15. -/
theorem save_task_unparseable_deadline_keeps_previous_instance :
    mgr0.tasks.find? (fun t => t.id == task0.id) = some task0
    ∧ pyStrip ("New title") ≠ ""
    ∧ pyStrip ("2024-13-07") ≠ ""
    ∧ parseDate (pyStrip ("2024-13-07")) = none
    ∧ ((∃ t' ∈ (save_task mgr0 app0 task0 ("New title") ("nd") ("2024-13-07")
            Priority.urgent_important Status.doing).1.tasks,
          t'.id = task0.id ∧ t'.deadline = task0.deadline)
       ∧ ∀ t' ∈ (save_task mgr0 app0 task0 ("New title") ("nd") ("2024-13-07")
            Priority.urgent_important Status.doing).1.tasks,
          t'.id = task0.id → t'.deadline = task0.deadline) :=
  ⟨by decide, by decide, by decide, by decide,
   save_task_unparseable_deadline_keeps_previous mgr0 app0 task0 ("New title") ("nd")
     ("2024-13-07") Priority.urgent_important Status.doing
     (by decide) (by decide) (by decide) (by decide)⟩

/-- C6: an unforced refresh with the task count equal to the cached
`_last_task_count` changes nothing; in particular after any in-place
`update_task` edit (which never changes the count) an unforced refresh
leaves the displayed columns exactly as they were. -/
theorem refresh_tasks_unforced_skips_unchanged_count
    (mgr : TaskManager) (a : AppState) (idv : String) (f : UpdateFields)
    (h : a.last_task_count = mgr.tasks.length) :
    refresh_tasks mgr false a = a
    ∧ refresh_tasks ((mgr.update_task idv f).1) false a = a := by
  constructor
  · simp [refresh_tasks, h]
  · simp [refresh_tasks, update_task_length, h]

/-- C6 (witness): after editing `task0`'s description in place, an
unforced refresh leaves the stale display untouched. -/
theorem refresh_tasks_unforced_skips_unchanged_count_instance :
    app0.last_task_count = mgr0.tasks.length
    ∧ (refresh_tasks mgr0 false app0 = app0
       ∧ refresh_tasks ((mgr0.update_task ("t0")
            { description := some ("edited") }).1) false app0 = app0) :=
  ⟨by decide, refresh_tasks_unforced_skips_unchanged_count mgr0 app0 ("t0")
    { description := some ("edited") } (by decide)⟩

/-- C7: for a stored task and any target status, a save with a nonempty
title succeeds (the screen is dismissed) and every stored task carrying the
edited id ends with the chosen status — no transition of the
todo/doing/done machine is structurally forbidden, whatever the task's
current status. -/
theorem save_task_any_status_transition
    (mgr : TaskManager) (a : AppState) (task : Task)
    (titleInput descriptionInput deadlineInput : String)
    (p : Priority) (sNew : Status)
    (hex : mgr.tasks.find? (fun t => t.id == task.id) = some task)
    (ht : pyStrip titleInput ≠ "") :
    (save_task mgr a task titleInput descriptionInput deadlineInput p sNew).2.2 = true
    ∧ (∃ t' ∈ (save_task mgr a task titleInput descriptionInput deadlineInput p sNew).1.tasks,
        t'.id = task.id ∧ t'.status = sNew)
    ∧ ∀ t' ∈ (save_task mgr a task titleInput descriptionInput deadlineInput p sNew).1.tasks,
        t'.id = task.id → t'.status = sNew := by
  have hstep : (save_task mgr a task titleInput descriptionInput deadlineInput p sNew).1
      = (mgr.update_task task.id
          (saveFields task titleInput descriptionInput deadlineInput p sNew)).1 := by
    simp [save_task, ht]
  refine ⟨by simp [save_task, ht], ?_, ?_⟩
  · refine ⟨applyFields task (saveFields task titleInput descriptionInput deadlineInput p sNew),
      ?_, applyFields_id task _, ?_⟩
    · rw [hstep]
      exact update_task_presence mgr task.id _ task (List.mem_of_find?_eq_some hex) rfl
    · simp [applyFields, saveFields]
  · intro t' hmem hid
    rw [hstep] at hmem
    obtain ⟨u, hu⟩ := update_task_matching mgr task.id _ t' hmem hid
    rw [hu]
    simp [applyFields, saveFields]

/-- C7 (witness): the backward transition done → todo on `taskDone`
succeeds. -/
theorem save_task_any_status_transition_instance :
    mgr0.tasks.find? (fun t => t.id == taskDone.id) = some taskDone
    ∧ pyStrip ("Finished") ≠ ""
    ∧ taskDone.status = Status.done
    ∧ ((save_task mgr0 app0 taskDone ("Finished") ("") ("")
          Priority.urgent_important Status.todo).2.2 = true
       ∧ (∃ t' ∈ (save_task mgr0 app0 taskDone ("Finished") ("") ("")
            Priority.urgent_important Status.todo).1.tasks,
          t'.id = taskDone.id ∧ t'.status = Status.todo)
       ∧ ∀ t' ∈ (save_task mgr0 app0 taskDone ("Finished") ("") ("")
            Priority.urgent_important Status.todo).1.tasks,
          t'.id = taskDone.id → t'.status = Status.todo) :=
  ⟨by decide, by decide, by decide,
   save_task_any_status_transition mgr0 app0 taskDone ("Finished") ("") ("")
     Priority.urgent_important Status.todo (by decide) (by decide)⟩

/-- C8: the shutdown hook `on_unmount` performs exactly one more
`force_save`: the persistence write count rises by exactly one — whatever
write-through saves already happened — and the collection is untouched. -/
theorem on_unmount_exactly_one_final_save (mgr : TaskManager) :
    (on_unmount mgr).saves = mgr.saves + 1 ∧ (on_unmount mgr).tasks = mgr.tasks :=
  ⟨rfl, rfl⟩

/-- C9: a save with a nonempty title whose deadline text strips to empty
sets the stored deadline of every task carrying the edited id to `none`,
clearing any previously stored deadline. -/
theorem save_task_empty_deadline_clears
    (mgr : TaskManager) (a : AppState) (task : Task)
    (titleInput descriptionInput deadlineInput : String)
    (p : Priority) (s : Status)
    (hex : mgr.tasks.find? (fun t => t.id == task.id) = some task)
    (ht : pyStrip titleInput ≠ "")
    (hd : pyStrip deadlineInput = "") :
    (∃ t' ∈ (save_task mgr a task titleInput descriptionInput deadlineInput p s).1.tasks,
      t'.id = task.id ∧ t'.deadline = none)
    ∧ ∀ t' ∈ (save_task mgr a task titleInput descriptionInput deadlineInput p s).1.tasks,
        t'.id = task.id → t'.deadline = none := by
  have hstep : (save_task mgr a task titleInput descriptionInput deadlineInput p s).1
      = (mgr.update_task task.id
          (saveFields task titleInput descriptionInput deadlineInput p s)).1 := by
    simp [save_task, ht]
  constructor
  · refine ⟨applyFields task (saveFields task titleInput descriptionInput deadlineInput p s),
      ?_, applyFields_id task _, ?_⟩
    · rw [hstep]
      exact update_task_presence mgr task.id _ task (List.mem_of_find?_eq_some hex) rfl
    · simp [applyFields, saveFields, hd]
  · intro t' hmem hid
    rw [hstep] at hmem
    obtain ⟨u, hu⟩ := update_task_matching mgr task.id _ t' hmem hid
    rw [hu]
    simp [applyFields, saveFields, hd]

/-- C9 (witness): a whitespace-only deadline input clears `task0`'s stored
deadline of 2024-01-15. -/
theorem save_task_empty_deadline_clears_instance :
    mgr0.tasks.find? (fun t => t.id == task0.id) = some task0
    ∧ pyStrip ("Kept title") ≠ ""
    ∧ pyStrip ("  ") = ""
    ∧ task0.deadline = some { year := 2024, month := 1, day := 15 }
    ∧ ((∃ t' ∈ (save_task mgr0 app0 task0 ("Kept title") ("old") ("  ")
            Priority.not_urgent_not_important Status.todo).1.tasks,
          t'.id = task0.id ∧ t'.deadline = none)
       ∧ ∀ t' ∈ (save_task mgr0 app0 task0 ("Kept title") ("old") ("  ")
            Priority.not_urgent_not_important Status.todo).1.tasks,
          t'.id = task0.id → t'.deadline = none) :=
  ⟨by decide, by decide, by decide, by decide,
   save_task_empty_deadline_clears mgr0 app0 task0 ("Kept title") ("old") ("  ")
     Priority.not_urgent_not_important Status.todo (by decide) (by decide) (by decide)⟩

/-- C10: moving the focused task left when it is already `todo`, or right
when it is already `done`, changes nothing at all: no update, no save, no
refresh — manager and display are returned exactly as they were. -/
theorem move_at_column_boundary_noop
    (mgr : TaskManager) (a : AppState) (task : Task) :
    (task.status = Status.todo → action_move_task_left mgr a (some task) = (mgr, a))
    ∧ (task.status = Status.done → action_move_task_right mgr a (some task) = (mgr, a)) := by
  constructor
  · intro h
    simp [action_move_task_left, h]
  · intro h
    simp [action_move_task_right, h]

/-- C10 (witness): `task0` (todo) moved left and `taskDone` (done) moved
right, both no-ops. -/
theorem move_at_column_boundary_noop_instance :
    task0.status = Status.todo
    ∧ taskDone.status = Status.done
    ∧ action_move_task_left mgr0 app0 (some task0) = (mgr0, app0)
    ∧ action_move_task_right mgr0 app0 (some taskDone) = (mgr0, app0) :=
  ⟨by decide, by decide,
   (move_at_column_boundary_noop mgr0 app0 task0).1 (by decide),
   (move_at_column_boundary_noop mgr0 app0 taskDone).2 (by decide)⟩

end TTerm
